import Mathlib

/-!
Shallow embedding of `src/libconcentratord/src/reset.rs` from
chirpstack-concentratord.

The Rust module owns four optional GPIO line handles (behind mutexes) plus an
optional list of reset commands, populated by `setup_pins` and consumed by
`reset`.  The GPIO layer (`gpio_cdev`) and the process launcher
(`std::process::Command`) are external blocking primitives; we model them as an
environment `Env` of fallible operations, and record the externally visible
operations (line-level writes, sleeps, command launches) as a trace.
-/

namespace Concentratord

/-- Errors from the GPIO layer or the process launcher (Rust `anyhow::Error`,
kept abstract as a string payload). -/
abbrev Err := String

/-- The captured output of an external command: `std::process::Output`.  The
Rust code calls `.output()?` and discards the value, so only the exit status is
modelled. -/
structure CmdOutput where
  status : Nat
  deriving DecidableEq, Repr

/-- The line-request flags used by the module; `reset.rs` only ever passes
`LineRequestFlags::OUTPUT`. -/
inductive LineRequestFlags where
  | OUTPUT
  deriving DecidableEq, Repr

/-- The four logical pin signals stored in the module's static registry. -/
inductive Signal where
  | sx1302_reset
  | sx1302_power_en
  | sx1261_reset
  | ad5338r_reset
  deriving DecidableEq, Repr

/-- The environment of external blocking primitives: chip open
(`Chip::new`), line lookup (`chip.get_line`), line request as output with an
initial value (`line.request`), level write (`handle.set_value`) and external
command execution (`Command::new(cmd).args(args).output()`).  A line handle is
modelled as a `Nat` identifier. -/
structure Env where
  newChip : String → Except Err Unit
  getLine : String → Nat → Except Err Unit
  request : String → Nat → LineRequestFlags → Nat → String → Except Err Nat
  setValue : Nat → Nat → Except Err Unit
  runCommand : String → List String → Except Err CmdOutput

/-- Rust `Configuration` (all fields optional, `#[derive(Default)]`). -/
structure Configuration where
  sx130x_reset : Option (String × Nat) := none
  sx1302_power_en : Option (String × Nat) := none
  sx1261_reset : Option (String × Nat) := none
  ad5338r_reset : Option (String × Nat) := none
  reset_commands : Option (List (String × List String)) := none

/-- The default (empty) `Configuration`, as produced by `#[derive(Default)]`. -/
def Configuration.default : Configuration := {}

/-- The module's static registry: the contents of the five
`lazy_static` mutexes (`SX1302_RESET`, `SX1302_POWER_EN`, `SX1261_RESET`,
`AD5338R_RESET`, `RESET_COMMANDS`), each initially `None`. -/
structure Registry where
  sx1302_reset : Option Nat := none
  sx1302_power_en : Option Nat := none
  sx1261_reset : Option Nat := none
  ad5338r_reset : Option Nat := none
  reset_commands : Option (List (String × List String)) := none
  deriving DecidableEq, Repr

/-- The registry at process start: every slot `None`. -/
def Registry.empty : Registry := {}

/-- Read a pin slot of the registry by signal name. -/
def Registry.slot (reg : Registry) : Signal → Option Nat
  | .sx1302_reset => reg.sx1302_reset
  | .sx1302_power_en => reg.sx1302_power_en
  | .sx1261_reset => reg.sx1261_reset
  | .ad5338r_reset => reg.ad5338r_reset

/-- Externally visible operations performed by `reset`: a successful level
write on the handle held in a signal's slot, a blocking sleep, or a
successfully launched external command. -/
inductive Action where
  | setLevel (sig : Signal) (handle : Nat) (level : Nat)
  | sleepMs (ms : Nat)
  | runCmd (cmd : String) (args : List String)
  deriving DecidableEq, Repr

/-- The signal a trace action belongs to (`none` for sleeps and commands). -/
def Action.signal : Action → Option Signal
  | .setLevel sig _ _ => some sig
  | .sleepMs _ => none
  | .runCmd _ _ => none

/-- Externally visible operations performed by `setup_pins`: a successful line
request, recording the parameters passed to `line.request`. -/
inductive SetupAction where
  | request (dev : String) (line : Nat) (flags : LineRequestFlags)
      (initial : Nat) (consumer : String)
  deriving DecidableEq, Repr

/-- The initial level passed with a recorded line request. -/
def SetupAction.initial : SetupAction → Nat
  | .request _ _ _ i _ => i

/-- The flags passed with a recorded line request. -/
def SetupAction.flags : SetupAction → LineRequestFlags
  | .request _ _ f _ _ => f

/-! ### `setup_pins`

Each `if let Some(..)` block of the Rust function opens the chip, looks up the
line, requests it as an output with initial value `0`, and stores the handle in
the corresponding slot; the `?` operator aborts the whole function on the first
error, leaving already-written slots in place.  Each block below returns the
result, the new value of its slot, and the recorded requests. -/

/-- One `if let Some(..)` block of `setup_pins`: open the chip
(`Chip::new(dev)?`), look up the line (`chip.get_line(pin)?`), request it as an
output with initial value 0 (`line.request(LineRequestFlags::OUTPUT, 0,
consumer)?`), and store the handle in the slot.  The four blocks of the Rust
function are this code with four consumer labels. -/
def setupPin (env : Env) (cfg : Option (String × Nat)) (consumer : String)
    (slot : Option Nat) : Except Err Unit × Option Nat × List SetupAction :=
  match cfg with
  | none => (.ok (), slot, [])
  | some (dev, pin) =>
    match env.newChip dev with
    | .error e => (.error e, slot, [])
    | .ok _ =>
      match env.getLine dev pin with
      | .error e => (.error e, slot, [])
      | .ok _ =>
        match env.request dev pin .OUTPUT 0 consumer with
        | .error e => (.error e, slot, [])
        | .ok h => (.ok (), some h, [.request dev pin .OUTPUT 0 consumer])

/-- The `config.sx130x_reset` block of `setup_pins` (slot `SX1302_RESET`). -/
def setupSx1302Reset (env : Env) (cfg : Option (String × Nat))
    (slot : Option Nat) : Except Err Unit × Option Nat × List SetupAction :=
  setupPin env cfg "sx130x_reset" slot

/-- The `config.sx1302_power_en` block of `setup_pins` (slot `SX1302_POWER_EN`). -/
def setupSx1302PowerEn (env : Env) (cfg : Option (String × Nat))
    (slot : Option Nat) : Except Err Unit × Option Nat × List SetupAction :=
  setupPin env cfg "sx1302_power_en" slot

/-- The `config.sx1261_reset` block of `setup_pins` (slot `SX1261_RESET`). -/
def setupSx1261Reset (env : Env) (cfg : Option (String × Nat))
    (slot : Option Nat) : Except Err Unit × Option Nat × List SetupAction :=
  setupPin env cfg "sx1261_reset" slot

/-- The `config.ad5338r_reset` block of `setup_pins` (slot `AD5338R_RESET`). -/
def setupAd5338rReset (env : Env) (cfg : Option (String × Nat))
    (slot : Option Nat) : Except Err Unit × Option Nat × List SetupAction :=
  setupPin env cfg "ad5338r_reset" slot

/-- Rust `setup_pins`: processes the five configuration fields in program
order, aborting at the first error (`?`) and leaving slots already written in
place.  Returns the result, the updated registry, and the recorded line
requests. -/
def setup_pins (env : Env) (config : Configuration) (reg : Registry) :
    Except Err Unit × Registry × List SetupAction :=
  let (r1, slot1, t1) := setupSx1302Reset env config.sx130x_reset reg.sx1302_reset
  let reg1 := { reg with sx1302_reset := slot1 }
  match r1 with
  | .error e => (.error e, reg1, t1)
  | .ok _ =>
    let (r2, slot2, t2) :=
      setupSx1302PowerEn env config.sx1302_power_en reg1.sx1302_power_en
    let reg2 := { reg1 with sx1302_power_en := slot2 }
    match r2 with
    | .error e => (.error e, reg2, t1 ++ t2)
    | .ok _ =>
      let (r3, slot3, t3) :=
        setupSx1261Reset env config.sx1261_reset reg2.sx1261_reset
      let reg3 := { reg2 with sx1261_reset := slot3 }
      match r3 with
      | .error e => (.error e, reg3, t1 ++ t2 ++ t3)
      | .ok _ =>
        let (r4, slot4, t4) :=
          setupAd5338rReset env config.ad5338r_reset reg3.ad5338r_reset
        let reg4 := { reg3 with ad5338r_reset := slot4 }
        match r4 with
        | .error e => (.error e, reg4, t1 ++ t2 ++ t3 ++ t4)
        | .ok _ =>
          let reg5 :=
            match config.reset_commands with
            | none => reg4
            | some cs => { reg4 with reset_commands := some cs }
          (.ok (), reg5, t1 ++ t2 ++ t3 ++ t4)

/-! ### `reset`

Each block of the Rust `reset` function locks one slot, skips it if `None`,
and otherwise drives the stored handle; `set_value(..)?` aborts the function on
an I/O error, and `sleep(Duration::from_millis(100))` always completes.  Only
successfully executed operations are recorded in the trace. -/

/-- The `SX1302_POWER_EN` block of `reset`: set the pin HIGH, wait 100 ms. -/
def resetPowerEn (env : Env) (slot : Option Nat) :
    Except Err Unit × List Action :=
  match slot with
  | none => (.ok (), [])
  | some h =>
    match env.setValue h 1 with
    | .error e => (.error e, [])
    | .ok _ => (.ok (), [.setLevel .sx1302_power_en h 1, .sleepMs 100])

/-- The `SX1302_RESET` block of `reset`: HIGH, wait 100 ms, LOW, wait 100 ms. -/
def resetSx1302 (env : Env) (slot : Option Nat) :
    Except Err Unit × List Action :=
  match slot with
  | none => (.ok (), [])
  | some h =>
    match env.setValue h 1 with
    | .error e => (.error e, [])
    | .ok _ =>
      match env.setValue h 0 with
      | .error e => (.error e, [.setLevel .sx1302_reset h 1, .sleepMs 100])
      | .ok _ =>
        (.ok (), [.setLevel .sx1302_reset h 1, .sleepMs 100,
                  .setLevel .sx1302_reset h 0, .sleepMs 100])

/-- The `SX1261_RESET` block of `reset`: LOW, wait 100 ms, HIGH, wait 100 ms. -/
def resetSx1261 (env : Env) (slot : Option Nat) :
    Except Err Unit × List Action :=
  match slot with
  | none => (.ok (), [])
  | some h =>
    match env.setValue h 0 with
    | .error e => (.error e, [])
    | .ok _ =>
      match env.setValue h 1 with
      | .error e => (.error e, [.setLevel .sx1261_reset h 0, .sleepMs 100])
      | .ok _ =>
        (.ok (), [.setLevel .sx1261_reset h 0, .sleepMs 100,
                  .setLevel .sx1261_reset h 1, .sleepMs 100])

/-- The `AD5338R_RESET` block of `reset`: LOW, wait 100 ms, HIGH, wait 100 ms. -/
def resetAd5338r (env : Env) (slot : Option Nat) :
    Except Err Unit × List Action :=
  match slot with
  | none => (.ok (), [])
  | some h =>
    match env.setValue h 0 with
    | .error e => (.error e, [])
    | .ok _ =>
      match env.setValue h 1 with
      | .error e => (.error e, [.setLevel .ad5338r_reset h 0, .sleepMs 100])
      | .ok _ =>
        (.ok (), [.setLevel .ad5338r_reset h 0, .sleepMs 100,
                  .setLevel .ad5338r_reset h 1, .sleepMs 100])

/-- The `for (cmd, args) in reset_commands` loop of `reset`: each command is
launched with `Command::new(cmd).args(args).output()?` — the `?` propagates
only a launch/wait failure, the captured exit status is discarded — followed by
a 100 ms sleep. -/
def runCommandList (env : Env) :
    List (String × List String) → Except Err Unit × List Action
  | [] => (.ok (), [])
  | (cmd, args) :: rest =>
    match env.runCommand cmd args with
    | .error e => (.error e, [])
    | .ok _out =>
      let (r, tr) := runCommandList env rest
      (r, .runCmd cmd args :: .sleepMs 100 :: tr)

/-- The `RESET_COMMANDS` block of `reset`: skipped when never configured. -/
def runResetCommands (env : Env)
    (cmds : Option (List (String × List String))) :
    Except Err Unit × List Action :=
  match cmds with
  | none => (.ok (), [])
  | some cs => runCommandList env cs

/-- Sequencing of the blocks of `reset`: the second step runs only when the
first succeeded, and the traces are concatenated. -/
def thenDo (a : Except Err Unit × List Action)
    (b : Unit → Except Err Unit × List Action) :
    Except Err Unit × List Action :=
  match a with
  | (.ok _, tr) =>
    let (r, tr2) := b ()
    (r, tr ++ tr2)
  | (.error e, tr) => (.error e, tr)

/-- Rust `reset`: runs the five blocks in program order — power enable, sx1302
reset pulse, sx1261 reset pulse, AD5338R reset pulse, reset commands — each
aborting the remainder on error. -/
def reset (env : Env) (reg : Registry) : Except Err Unit × List Action :=
  thenDo (resetPowerEn env reg.sx1302_power_en) fun _ =>
  thenDo (resetSx1302 env reg.sx1302_reset) fun _ =>
  thenDo (resetSx1261 env reg.sx1261_reset) fun _ =>
  thenDo (resetAd5338r env reg.ad5338r_reset) fun _ =>
  runResetCommands env reg.reset_commands

/-! ### Nominal traces

The trace each block produces when every operation succeeds, written as a
function of the registry contents. -/

/-- Nominal trace of the power-enable block. -/
def powerEnTrace : Option Nat → List Action
  | none => []
  | some h => [.setLevel .sx1302_power_en h 1, .sleepMs 100]

/-- Nominal trace of the sx1302 reset block (active-high pulse). -/
def sx1302Trace : Option Nat → List Action
  | none => []
  | some h => [.setLevel .sx1302_reset h 1, .sleepMs 100,
               .setLevel .sx1302_reset h 0, .sleepMs 100]

/-- Nominal trace of the sx1261 reset block (active-low pulse). -/
def sx1261Trace : Option Nat → List Action
  | none => []
  | some h => [.setLevel .sx1261_reset h 0, .sleepMs 100,
               .setLevel .sx1261_reset h 1, .sleepMs 100]

/-- Nominal trace of the AD5338R reset block (active-low pulse). -/
def ad5338rTrace : Option Nat → List Action
  | none => []
  | some h => [.setLevel .ad5338r_reset h 0, .sleepMs 100,
               .setLevel .ad5338r_reset h 1, .sleepMs 100]

/-- Nominal trace of the command loop: each command followed by a 100 ms
sleep, in stored order. -/
def cmdListTrace : List (String × List String) → List Action
  | [] => []
  | (cmd, args) :: rest => .runCmd cmd args :: .sleepMs 100 :: cmdListTrace rest

/-- Nominal trace of the command block. -/
def cmdsTrace : Option (List (String × List String)) → List Action
  | none => []
  | some cs => cmdListTrace cs

/-- The nominal trace of a full successful `reset` call on a registry. -/
def resetTrace (reg : Registry) : List Action :=
  powerEnTrace reg.sx1302_power_en ++ sx1302Trace reg.sx1302_reset ++
  sx1261Trace reg.sx1261_reset ++ ad5338rTrace reg.ad5338r_reset ++
  cmdsTrace reg.reset_commands

/-- The level changes a trace applies to a given signal's line. -/
def eventsOf (sig : Signal) (tr : List Action) : List Action :=
  tr.filter fun a => decide (a.signal = some sig)

/-- Whether an action is a command launch. -/
def Action.isCmd : Action → Bool
  | .runCmd _ _ => true
  | _ => false

/-- The command launches in a trace. -/
def cmdEvents (tr : List Action) : List Action :=
  tr.filter Action.isCmd

/-- The line requests `setup_pins` issues for one configuration field when it
succeeds: none when absent, one output request with initial level 0 when
present. -/
def requestsFor (cfg : Option (String × Nat)) (consumer : String) :
    List SetupAction :=
  match cfg with
  | none => []
  | some (dev, pin) => [.request dev pin .OUTPUT 0 consumer]

/-- The line requests a fully successful `setup_pins` issues, in field order. -/
def expectedRequests (config : Configuration) : List SetupAction :=
  requestsFor config.sx130x_reset "sx130x_reset" ++
  requestsFor config.sx1302_power_en "sx1302_power_en" ++
  requestsFor config.sx1261_reset "sx1261_reset" ++
  requestsFor config.ad5338r_reset "ad5338r_reset"

/-- An environment in which every external primitive succeeds; a requested
line's handle is its line offset, commands exit with status 0. -/
def envAllOk : Env :=
  { newChip := fun _ => .ok ()
    getLine := fun _ _ => .ok ()
    request := fun _ pin _ _ _ => .ok pin
    setValue := fun _ _ => .ok ()
    runCommand := fun _ _ => .ok ⟨0⟩ }

/-- An environment in which every operation succeeds except the line request
labelled `ad5338r_reset`, which fails with a line-claim error. -/
def envFailAd : Env :=
  { newChip := fun _ => .ok ()
    getLine := fun _ _ => .ok ()
    request := fun _ pin _ _ consumer =>
      if consumer = "ad5338r_reset" then .error "line claim" else .ok pin
    setValue := fun _ _ => .ok ()
    runCommand := fun _ _ => .ok ⟨0⟩ }

/-- An environment in which every level write fails with an I/O error. -/
def envSetFail : Env :=
  { newChip := fun _ => .ok ()
    getLine := fun _ _ => .ok ()
    request := fun _ pin _ _ _ => .ok pin
    setValue := fun _ _ => .error "io"
    runCommand := fun _ _ => .ok ⟨0⟩ }

/-- An environment in which every external command launches and terminates
with the failure exit status 1. -/
def envExitOne : Env :=
  { newChip := fun _ => .ok ()
    getLine := fun _ _ => .ok ()
    request := fun _ pin _ _ _ => .ok pin
    setValue := fun _ _ => .ok ()
    runCommand := fun _ _ => .ok ⟨1⟩ }

/-- An environment in which the external command `"bad"` fails to launch and
every other operation succeeds. -/
def envLaunchFail : Env :=
  { newChip := fun _ => .ok ()
    getLine := fun _ _ => .ok ()
    request := fun _ pin _ _ _ => .ok pin
    setValue := fun _ _ => .ok ()
    runCommand := fun cmd _ =>
      if cmd = "bad" then .error "launch" else .ok ⟨0⟩ }

/-- A fully configured registry used to instantiate the verified properties:
distinct handles in all four slots and one reset command. -/
def regSample : Registry :=
  { sx1302_reset := some 1
    sx1302_power_en := some 2
    sx1261_reset := some 3
    ad5338r_reset := some 4
    reset_commands := some [("c", ["x"])] }

/-- A configuration with all four pin fields present, used to instantiate the
verified properties. -/
def cfgSample : Configuration :=
  { sx130x_reset := some ("a", 1)
    sx1302_power_en := some ("a", 2)
    sx1261_reset := some ("a", 3)
    ad5338r_reset := some ("a", 4) }

/-! ### Helper lemmas -/

theorem eventsOf_append (sig : Signal) (t1 t2 : List Action) :
    eventsOf sig (t1 ++ t2) = eventsOf sig t1 ++ eventsOf sig t2 := by
  simp [eventsOf, List.filter_append]

theorem cmdEvents_append (t1 t2 : List Action) :
    cmdEvents (t1 ++ t2) = cmdEvents t1 ++ cmdEvents t2 := by
  simp [cmdEvents, List.filter_append]

theorem thenDo_fst_ok (a : Except Err Unit × List Action)
    (b : Unit → Except Err Unit × List Action) :
    (thenDo a b).1 = .ok () ↔ a.1 = .ok () ∧ (b ()).1 = .ok () := by
  rcases a with ⟨ra, ta⟩
  cases ra <;> simp [thenDo]

theorem thenDo_ok_snd (a : Except Err Unit × List Action)
    (b : Unit → Except Err Unit × List Action) (ha : a.1 = .ok ()) :
    (thenDo a b).2 = a.2 ++ (b ()).2 := by
  rcases a with ⟨ra, ta⟩
  cases ra <;> simp_all [thenDo]

theorem thenDo_snd_cases (a : Except Err Unit × List Action)
    (b : Unit → Except Err Unit × List Action) :
    (thenDo a b).2 = a.2 ∨ (thenDo a b).2 = a.2 ++ (b ()).2 := by
  rcases a with ⟨ra, ta⟩
  cases ra <;> simp [thenDo]

theorem eventsOf_thenDo_nil (sig : Signal) (a : Except Err Unit × List Action)
    (b : Unit → Except Err Unit × List Action)
    (ha : eventsOf sig a.2 = []) (hb : eventsOf sig (b ()).2 = []) :
    eventsOf sig (thenDo a b).2 = [] := by
  rcases thenDo_snd_cases a b with h | h <;>
    simp [h, eventsOf_append, ha, hb]

theorem cmdEvents_thenDo_nil (a : Except Err Unit × List Action)
    (b : Unit → Except Err Unit × List Action)
    (ha : cmdEvents a.2 = []) (hb : cmdEvents (b ()).2 = []) :
    cmdEvents (thenDo a b).2 = [] := by
  rcases thenDo_snd_cases a b with h | h <;>
    simp [h, cmdEvents_append, ha, hb]

theorem resetPowerEn_ok_trace (env : Env) (slot : Option Nat)
    (h : (resetPowerEn env slot).1 = .ok ()) :
    (resetPowerEn env slot).2 = powerEnTrace slot := by
  rcases slot with _ | hd
  · rfl
  · rcases hv : env.setValue hd 1 with e | u <;>
      simp_all [resetPowerEn, powerEnTrace]

theorem resetSx1302_ok_trace (env : Env) (slot : Option Nat)
    (h : (resetSx1302 env slot).1 = .ok ()) :
    (resetSx1302 env slot).2 = sx1302Trace slot := by
  rcases slot with _ | hd
  · rfl
  · rcases h1 : env.setValue hd 1 with e | u <;>
      rcases h0 : env.setValue hd 0 with e' | u' <;>
      simp_all [resetSx1302, sx1302Trace]

theorem resetSx1261_ok_trace (env : Env) (slot : Option Nat)
    (h : (resetSx1261 env slot).1 = .ok ()) :
    (resetSx1261 env slot).2 = sx1261Trace slot := by
  rcases slot with _ | hd
  · rfl
  · rcases h0 : env.setValue hd 0 with e | u <;>
      rcases h1 : env.setValue hd 1 with e' | u' <;>
      simp_all [resetSx1261, sx1261Trace]

theorem resetAd5338r_ok_trace (env : Env) (slot : Option Nat)
    (h : (resetAd5338r env slot).1 = .ok ()) :
    (resetAd5338r env slot).2 = ad5338rTrace slot := by
  rcases slot with _ | hd
  · rfl
  · rcases h0 : env.setValue hd 0 with e | u <;>
      rcases h1 : env.setValue hd 1 with e' | u' <;>
      simp_all [resetAd5338r, ad5338rTrace]

theorem runCommandList_ok_trace (env : Env) (cs : List (String × List String)) :
    (runCommandList env cs).1 = .ok () →
      (runCommandList env cs).2 = cmdListTrace cs := by
  induction cs with
  | nil => intro _; rfl
  | cons p rest ih =>
    obtain ⟨cmd, args⟩ := p
    intro h
    rcases hv : env.runCommand cmd args with e | out
    · simp [runCommandList, hv] at h
    · rcases hr : runCommandList env rest with ⟨r, tr⟩
      rw [hr] at ih
      simp only [runCommandList, hv, hr] at h ⊢
      simp only [cmdListTrace]
      simp at h ih ⊢
      exact ih h

theorem runResetCommands_ok_trace (env : Env)
    (cmds : Option (List (String × List String)))
    (h : (runResetCommands env cmds).1 = .ok ()) :
    (runResetCommands env cmds).2 = cmdsTrace cmds := by
  rcases cmds with _ | cs
  · rfl
  · exact runCommandList_ok_trace env cs h

theorem resetPowerEn_prefix_full (env : Env) (slot : Option Nat) :
    ∃ t, (resetPowerEn env slot).2 ++ t = powerEnTrace slot := by
  rcases slot with _ | hd
  · exact ⟨[], rfl⟩
  · rcases hv : env.setValue hd 1 with e | u
    · exact ⟨powerEnTrace (some hd), by simp [resetPowerEn, hv]⟩
    · exact ⟨[], by simp [resetPowerEn, hv, powerEnTrace]⟩

theorem resetSx1302_prefix_full (env : Env) (slot : Option Nat) :
    ∃ t, (resetSx1302 env slot).2 ++ t = sx1302Trace slot := by
  rcases slot with _ | hd
  · exact ⟨[], rfl⟩
  · rcases h1 : env.setValue hd 1 with e | u
    · exact ⟨sx1302Trace (some hd), by simp [resetSx1302, h1]⟩
    · rcases h0 : env.setValue hd 0 with e' | u'
      · exact ⟨[.setLevel .sx1302_reset hd 0, .sleepMs 100], by
          simp [resetSx1302, h1, h0, sx1302Trace]⟩
      · exact ⟨[], by simp [resetSx1302, h1, h0, sx1302Trace]⟩

theorem resetSx1261_prefix_full (env : Env) (slot : Option Nat) :
    ∃ t, (resetSx1261 env slot).2 ++ t = sx1261Trace slot := by
  rcases slot with _ | hd
  · exact ⟨[], rfl⟩
  · rcases h0 : env.setValue hd 0 with e | u
    · exact ⟨sx1261Trace (some hd), by simp [resetSx1261, h0]⟩
    · rcases h1 : env.setValue hd 1 with e' | u'
      · exact ⟨[.setLevel .sx1261_reset hd 1, .sleepMs 100], by
          simp [resetSx1261, h0, h1, sx1261Trace]⟩
      · exact ⟨[], by simp [resetSx1261, h0, h1, sx1261Trace]⟩

theorem resetAd5338r_prefix_full (env : Env) (slot : Option Nat) :
    ∃ t, (resetAd5338r env slot).2 ++ t = ad5338rTrace slot := by
  rcases slot with _ | hd
  · exact ⟨[], rfl⟩
  · rcases h0 : env.setValue hd 0 with e | u
    · exact ⟨ad5338rTrace (some hd), by simp [resetAd5338r, h0]⟩
    · rcases h1 : env.setValue hd 1 with e' | u'
      · exact ⟨[.setLevel .ad5338r_reset hd 1, .sleepMs 100], by
          simp [resetAd5338r, h0, h1, ad5338rTrace]⟩
      · exact ⟨[], by simp [resetAd5338r, h0, h1, ad5338rTrace]⟩

theorem runCommandList_prefix_full (env : Env)
    (cs : List (String × List String)) :
    ∃ t, (runCommandList env cs).2 ++ t = cmdListTrace cs := by
  induction cs with
  | nil => exact ⟨[], rfl⟩
  | cons p rest ih =>
    obtain ⟨cmd, args⟩ := p
    rcases hv : env.runCommand cmd args with e | out
    · exact ⟨cmdListTrace ((cmd, args) :: rest), by simp [runCommandList, hv]⟩
    · obtain ⟨t, ht⟩ := ih
      rcases hr : runCommandList env rest with ⟨r, tr⟩
      rw [hr] at ht
      simp at ht
      exact ⟨t, by
        simp only [runCommandList, hv, hr, cmdListTrace]
        simp [ht]⟩

theorem runResetCommands_prefix_full (env : Env)
    (cmds : Option (List (String × List String))) :
    ∃ t, (runResetCommands env cmds).2 ++ t = cmdsTrace cmds := by
  rcases cmds with _ | cs
  · exact ⟨[], rfl⟩
  · exact runCommandList_prefix_full env cs

theorem eventsOf_resetPowerEn (env : Env) (slot : Option Nat) (sig : Signal)
    (h : sig ≠ Signal.sx1302_power_en) :
    eventsOf sig (resetPowerEn env slot).2 = [] := by
  rcases slot with _ | hd
  · rfl
  · rcases hv : env.setValue hd 1 with e | u
    · simp [resetPowerEn, hv, eventsOf]
    · cases sig <;> simp_all [resetPowerEn, hv, eventsOf, Action.signal]

theorem eventsOf_resetSx1302 (env : Env) (slot : Option Nat) (sig : Signal)
    (h : sig ≠ Signal.sx1302_reset) :
    eventsOf sig (resetSx1302 env slot).2 = [] := by
  rcases slot with _ | hd
  · rfl
  · rcases h1 : env.setValue hd 1 with e | u
    · simp [resetSx1302, h1, eventsOf]
    · rcases h0 : env.setValue hd 0 with e' | u' <;>
        cases sig <;> simp_all [resetSx1302, h1, h0, eventsOf, Action.signal]

theorem eventsOf_resetSx1261 (env : Env) (slot : Option Nat) (sig : Signal)
    (h : sig ≠ Signal.sx1261_reset) :
    eventsOf sig (resetSx1261 env slot).2 = [] := by
  rcases slot with _ | hd
  · rfl
  · rcases h0 : env.setValue hd 0 with e | u
    · simp [resetSx1261, h0, eventsOf]
    · rcases h1 : env.setValue hd 1 with e' | u' <;>
        cases sig <;> simp_all [resetSx1261, h0, h1, eventsOf, Action.signal]

theorem eventsOf_resetAd5338r (env : Env) (slot : Option Nat) (sig : Signal)
    (h : sig ≠ Signal.ad5338r_reset) :
    eventsOf sig (resetAd5338r env slot).2 = [] := by
  rcases slot with _ | hd
  · rfl
  · rcases h0 : env.setValue hd 0 with e | u
    · simp [resetAd5338r, h0, eventsOf]
    · rcases h1 : env.setValue hd 1 with e' | u' <;>
        cases sig <;> simp_all [resetAd5338r, h0, h1, eventsOf, Action.signal]

theorem eventsOf_runCommandList (env : Env) (cs : List (String × List String))
    (sig : Signal) : eventsOf sig (runCommandList env cs).2 = [] := by
  induction cs with
  | nil => rfl
  | cons p rest ih =>
    obtain ⟨cmd, args⟩ := p
    rcases hv : env.runCommand cmd args with e | out
    · simp [runCommandList, hv, eventsOf]
    · rcases hr : runCommandList env rest with ⟨r, tr⟩
      rw [hr] at ih
      simp only [runCommandList, hv, hr]
      simp_all [eventsOf, Action.signal]

theorem eventsOf_runResetCommands (env : Env)
    (cmds : Option (List (String × List String))) (sig : Signal) :
    eventsOf sig (runResetCommands env cmds).2 = [] := by
  rcases cmds with _ | cs
  · rfl
  · exact eventsOf_runCommandList env cs sig

theorem cmdEvents_resetPowerEn (env : Env) (slot : Option Nat) :
    cmdEvents (resetPowerEn env slot).2 = [] := by
  rcases slot with _ | hd
  · rfl
  · rcases hv : env.setValue hd 1 with e | u <;>
      simp [resetPowerEn, hv, cmdEvents, Action.isCmd]

theorem cmdEvents_resetSx1302 (env : Env) (slot : Option Nat) :
    cmdEvents (resetSx1302 env slot).2 = [] := by
  rcases slot with _ | hd
  · rfl
  · rcases h1 : env.setValue hd 1 with e | u
    · simp [resetSx1302, h1, cmdEvents]
    · rcases h0 : env.setValue hd 0 with e' | u' <;>
        simp [resetSx1302, h1, h0, cmdEvents, Action.isCmd]

theorem cmdEvents_resetSx1261 (env : Env) (slot : Option Nat) :
    cmdEvents (resetSx1261 env slot).2 = [] := by
  rcases slot with _ | hd
  · rfl
  · rcases h0 : env.setValue hd 0 with e | u
    · simp [resetSx1261, h0, cmdEvents]
    · rcases h1 : env.setValue hd 1 with e' | u' <;>
        simp [resetSx1261, h0, h1, cmdEvents, Action.isCmd]

theorem cmdEvents_resetAd5338r (env : Env) (slot : Option Nat) :
    cmdEvents (resetAd5338r env slot).2 = [] := by
  rcases slot with _ | hd
  · rfl
  · rcases h0 : env.setValue hd 0 with e | u
    · simp [resetAd5338r, h0, cmdEvents]
    · rcases h1 : env.setValue hd 1 with e' | u' <;>
        simp [resetAd5338r, h0, h1, cmdEvents, Action.isCmd]

theorem eventsOf_powerEnTrace (slot : Option Nat) (sig : Signal)
    (h : sig ≠ Signal.sx1302_power_en) :
    eventsOf sig (powerEnTrace slot) = [] := by
  rcases slot with _ | hd
  · rfl
  · cases sig <;> simp_all [powerEnTrace, eventsOf, Action.signal]

theorem eventsOf_sx1302Trace (slot : Option Nat) (sig : Signal)
    (h : sig ≠ Signal.sx1302_reset) :
    eventsOf sig (sx1302Trace slot) = [] := by
  rcases slot with _ | hd
  · rfl
  · cases sig <;> simp_all [sx1302Trace, eventsOf, Action.signal]

theorem eventsOf_sx1261Trace (slot : Option Nat) (sig : Signal)
    (h : sig ≠ Signal.sx1261_reset) :
    eventsOf sig (sx1261Trace slot) = [] := by
  rcases slot with _ | hd
  · rfl
  · cases sig <;> simp_all [sx1261Trace, eventsOf, Action.signal]

theorem eventsOf_ad5338rTrace (slot : Option Nat) (sig : Signal)
    (h : sig ≠ Signal.ad5338r_reset) :
    eventsOf sig (ad5338rTrace slot) = [] := by
  rcases slot with _ | hd
  · rfl
  · cases sig <;> simp_all [ad5338rTrace, eventsOf, Action.signal]

theorem eventsOf_cmdListTrace (cs : List (String × List String))
    (sig : Signal) : eventsOf sig (cmdListTrace cs) = [] := by
  induction cs with
  | nil => rfl
  | cons p rest ih =>
    obtain ⟨cmd, args⟩ := p
    simp_all [cmdListTrace, eventsOf, Action.signal]

theorem eventsOf_cmdsTrace (cmds : Option (List (String × List String)))
    (sig : Signal) : eventsOf sig (cmdsTrace cmds) = [] := by
  rcases cmds with _ | cs
  · rfl
  · exact eventsOf_cmdListTrace cs sig

theorem cmdEvents_powerEnTrace (slot : Option Nat) :
    cmdEvents (powerEnTrace slot) = [] := by
  rcases slot with _ | hd <;> simp [powerEnTrace, cmdEvents, Action.isCmd]

theorem cmdEvents_sx1302Trace (slot : Option Nat) :
    cmdEvents (sx1302Trace slot) = [] := by
  rcases slot with _ | hd <;> simp [sx1302Trace, cmdEvents, Action.isCmd]

theorem cmdEvents_sx1261Trace (slot : Option Nat) :
    cmdEvents (sx1261Trace slot) = [] := by
  rcases slot with _ | hd <;> simp [sx1261Trace, cmdEvents, Action.isCmd]

theorem cmdEvents_ad5338rTrace (slot : Option Nat) :
    cmdEvents (ad5338rTrace slot) = [] := by
  rcases slot with _ | hd <;> simp [ad5338rTrace, cmdEvents, Action.isCmd]

theorem cmdEvents_cmdListTrace (cs : List (String × List String)) :
    cmdEvents (cmdListTrace cs) = cs.map fun p => Action.runCmd p.1 p.2 := by
  induction cs with
  | nil => rfl
  | cons p rest ih =>
    obtain ⟨cmd, args⟩ := p
    simp_all [cmdListTrace, cmdEvents, Action.isCmd]

theorem thenDo_chain_ok (a1 a2 a3 a4 a5 : Except Err Unit × List Action)
    (h1 : a1.1 = .ok ()) (h2 : a2.1 = .ok ()) (h3 : a3.1 = .ok ())
    (h4 : a4.1 = .ok ()) :
    (thenDo a1 fun _ => thenDo a2 fun _ => thenDo a3 fun _ =>
        thenDo a4 fun _ => a5).2 =
      a1.2 ++ (a2.2 ++ (a3.2 ++ (a4.2 ++ a5.2))) := by
  rcases a1 with ⟨r1, t1⟩
  rcases a2 with ⟨r2, t2⟩
  rcases a3 with ⟨r3, t3⟩
  rcases a4 with ⟨r4, t4⟩
  cases r1 <;> cases r2 <;> cases r3 <;> cases r4 <;> simp_all [thenDo]

theorem reset_blocks_ok (env : Env) (reg : Registry)
    (h : (reset env reg).1 = .ok ()) :
    (resetPowerEn env reg.sx1302_power_en).1 = .ok () ∧
    (resetSx1302 env reg.sx1302_reset).1 = .ok () ∧
    (resetSx1261 env reg.sx1261_reset).1 = .ok () ∧
    (resetAd5338r env reg.ad5338r_reset).1 = .ok () ∧
    (runResetCommands env reg.reset_commands).1 = .ok () := by
  simp only [reset, thenDo_fst_ok] at h
  exact h

/-- On success, the trace of `reset` is exactly the nominal trace of the
registry. -/
theorem reset_ok_trace (env : Env) (reg : Registry)
    (h : (reset env reg).1 = .ok ()) :
    (reset env reg).2 = resetTrace reg := by
  obtain ⟨h1, h2, h3, h4, h5⟩ := reset_blocks_ok env reg h
  simp only [reset]
  rw [thenDo_chain_ok _ _ _ _ _ h1 h2 h3 h4]
  rw [resetPowerEn_ok_trace env _ h1, resetSx1302_ok_trace env _ h2,
      resetSx1261_ok_trace env _ h3, resetAd5338r_ok_trace env _ h4,
      runResetCommands_ok_trace env _ h5]
  simp [resetTrace]

theorem thenDo_prefix_full (a : Except Err Unit × List Action)
    (b : Unit → Except Err Unit × List Action) (fa fb : List Action)
    (oa : a.1 = .ok () → a.2 = fa) (pa : ∃ t, a.2 ++ t = fa)
    (pb : ∃ t, (b ()).2 ++ t = fb) :
    ∃ t, (thenDo a b).2 ++ t = fa ++ fb := by
  rcases a with ⟨ra, ta⟩
  cases ra with
  | error e =>
    obtain ⟨t, ht⟩ := pa
    refine ⟨t ++ fb, ?_⟩
    simp only [thenDo]
    rw [← List.append_assoc]
    simp_all
  | ok u =>
    obtain ⟨t, ht⟩ := pb
    have hta : ta = fa := oa rfl
    refine ⟨t, ?_⟩
    simp only [thenDo]
    simp_all

/-- The executed trace of any `reset` call is a prefix of the nominal trace:
nothing beyond the abort point is executed, and nothing is undone. -/
theorem reset_trace_le_full (env : Env) (reg : Registry) :
    ∃ t, (reset env reg).2 ++ t = resetTrace reg := by
  have p5 := runResetCommands_prefix_full env reg.reset_commands
  have c4 := thenDo_prefix_full (resetAd5338r env reg.ad5338r_reset)
    (fun _ => runResetCommands env reg.reset_commands) _ _
    (resetAd5338r_ok_trace env _) (resetAd5338r_prefix_full env _) p5
  have c3 := thenDo_prefix_full (resetSx1261 env reg.sx1261_reset)
    (fun _ => thenDo (resetAd5338r env reg.ad5338r_reset)
      fun _ => runResetCommands env reg.reset_commands) _ _
    (resetSx1261_ok_trace env _) (resetSx1261_prefix_full env _) c4
  have c2 := thenDo_prefix_full (resetSx1302 env reg.sx1302_reset)
    (fun _ => thenDo (resetSx1261 env reg.sx1261_reset)
      fun _ => thenDo (resetAd5338r env reg.ad5338r_reset)
      fun _ => runResetCommands env reg.reset_commands) _ _
    (resetSx1302_ok_trace env _) (resetSx1302_prefix_full env _) c3
  have c1 := thenDo_prefix_full (resetPowerEn env reg.sx1302_power_en)
    (fun _ => thenDo (resetSx1302 env reg.sx1302_reset)
      fun _ => thenDo (resetSx1261 env reg.sx1261_reset)
      fun _ => thenDo (resetAd5338r env reg.ad5338r_reset)
      fun _ => runResetCommands env reg.reset_commands) _ _
    (resetPowerEn_ok_trace env _) (resetPowerEn_prefix_full env _) c2
  simpa [reset, resetTrace] using c1

theorem cmdListTrace_append (xs ys : List (String × List String)) :
    cmdListTrace (xs ++ ys) = cmdListTrace xs ++ cmdListTrace ys := by
  induction xs with
  | nil => rfl
  | cons p rest ih =>
    obtain ⟨cmd, args⟩ := p
    simp [cmdListTrace, ih]

theorem setupPin_skip (env : Env) (consumer : String) (slot : Option Nat) :
    setupPin env none consumer slot = (.ok (), slot, []) := rfl

theorem setupPin_slot_none (env : Env) (cfg : Option (String × Nat))
    (consumer : String) (slot : Option Nat)
    (h : (setupPin env cfg consumer slot).2.1 = none) : slot = none := by
  rcases cfg with _ | ⟨dev, pin⟩
  · exact h
  · rcases hc : env.newChip dev with e | u <;>
    rcases hl : env.getLine dev pin with e' | u' <;>
    rcases hr : env.request dev pin .OUTPUT 0 consumer with e'' | hdl <;>
      simp_all [setupPin]

theorem setupPin_ok_requests (env : Env) (cfg : Option (String × Nat))
    (consumer : String) (slot : Option Nat)
    (h : (setupPin env cfg consumer slot).1 = .ok ()) :
    (setupPin env cfg consumer slot).2.2 = requestsFor cfg consumer := by
  rcases cfg with _ | ⟨dev, pin⟩
  · rfl
  · rcases hc : env.newChip dev with e | u <;>
    rcases hl : env.getLine dev pin with e' | u' <;>
    rcases hr : env.request dev pin .OUTPUT 0 consumer with e'' | hdl <;>
      simp_all [setupPin, requestsFor]

theorem setupPin_params (env : Env) (cfg : Option (String × Nat))
    (consumer : String) (slot : Option Nat) (ev : SetupAction)
    (h : ev ∈ (setupPin env cfg consumer slot).2.2) :
    ev.initial = 0 ∧ ev.flags = .OUTPUT := by
  rcases cfg with _ | ⟨dev, pin⟩
  · simp [setupPin] at h
  · rcases hc : env.newChip dev with e | u <;>
    rcases hl : env.getLine dev pin with e' | u' <;>
    rcases hr : env.request dev pin .OUTPUT 0 consumer with e'' | hdl <;>
      simp_all [setupPin, SetupAction.initial, SetupAction.flags]

theorem setupSx1302Reset_slot_none (env : Env) (cfg : Option (String × Nat))
    (slot : Option Nat) (h : (setupSx1302Reset env cfg slot).2.1 = none) :
    slot = none := setupPin_slot_none env cfg _ slot h

theorem setupSx1302PowerEn_slot_none (env : Env) (cfg : Option (String × Nat))
    (slot : Option Nat) (h : (setupSx1302PowerEn env cfg slot).2.1 = none) :
    slot = none := setupPin_slot_none env cfg _ slot h

theorem setupSx1261Reset_slot_none (env : Env) (cfg : Option (String × Nat))
    (slot : Option Nat) (h : (setupSx1261Reset env cfg slot).2.1 = none) :
    slot = none := setupPin_slot_none env cfg _ slot h

theorem setupAd5338rReset_slot_none (env : Env) (cfg : Option (String × Nat))
    (slot : Option Nat) (h : (setupAd5338rReset env cfg slot).2.1 = none) :
    slot = none := setupPin_slot_none env cfg _ slot h

theorem setupSx1302Reset_ok_requests (env : Env) (cfg : Option (String × Nat))
    (slot : Option Nat) (h : (setupSx1302Reset env cfg slot).1 = .ok ()) :
    (setupSx1302Reset env cfg slot).2.2 = requestsFor cfg "sx130x_reset" :=
  setupPin_ok_requests env cfg _ slot h

theorem setupSx1302PowerEn_ok_requests (env : Env) (cfg : Option (String × Nat))
    (slot : Option Nat) (h : (setupSx1302PowerEn env cfg slot).1 = .ok ()) :
    (setupSx1302PowerEn env cfg slot).2.2 = requestsFor cfg "sx1302_power_en" :=
  setupPin_ok_requests env cfg _ slot h

theorem setupSx1261Reset_ok_requests (env : Env) (cfg : Option (String × Nat))
    (slot : Option Nat) (h : (setupSx1261Reset env cfg slot).1 = .ok ()) :
    (setupSx1261Reset env cfg slot).2.2 = requestsFor cfg "sx1261_reset" :=
  setupPin_ok_requests env cfg _ slot h

theorem setupAd5338rReset_ok_requests (env : Env) (cfg : Option (String × Nat))
    (slot : Option Nat) (h : (setupAd5338rReset env cfg slot).1 = .ok ()) :
    (setupAd5338rReset env cfg slot).2.2 = requestsFor cfg "ad5338r_reset" :=
  setupPin_ok_requests env cfg _ slot h

theorem setupSx1302Reset_params (env : Env) (cfg : Option (String × Nat))
    (slot : Option Nat) (ev : SetupAction)
    (h : ev ∈ (setupSx1302Reset env cfg slot).2.2) :
    ev.initial = 0 ∧ ev.flags = .OUTPUT := setupPin_params env cfg _ slot ev h

theorem setupSx1302PowerEn_params (env : Env) (cfg : Option (String × Nat))
    (slot : Option Nat) (ev : SetupAction)
    (h : ev ∈ (setupSx1302PowerEn env cfg slot).2.2) :
    ev.initial = 0 ∧ ev.flags = .OUTPUT := setupPin_params env cfg _ slot ev h

theorem setupSx1261Reset_params (env : Env) (cfg : Option (String × Nat))
    (slot : Option Nat) (ev : SetupAction)
    (h : ev ∈ (setupSx1261Reset env cfg slot).2.2) :
    ev.initial = 0 ∧ ev.flags = .OUTPUT := setupPin_params env cfg _ slot ev h

theorem setupAd5338rReset_params (env : Env) (cfg : Option (String × Nat))
    (slot : Option Nat) (ev : SetupAction)
    (h : ev ∈ (setupAd5338rReset env cfg slot).2.2) :
    ev.initial = 0 ∧ ev.flags = .OUTPUT := setupPin_params env cfg _ slot ev h

/-- How `setup_pins` can change each registry slot: the first slot always holds
the first block's outcome; each later slot is either untouched (an earlier
block failed) or holds its own block's outcome; the command list is either
untouched or replaced verbatim by the configured list. -/
theorem setup_pins_slots (env : Env) (config : Configuration) (reg : Registry) :
    ((setup_pins env config reg).2.1.sx1302_reset =
        (setupSx1302Reset env config.sx130x_reset reg.sx1302_reset).2.1) ∧
    ((setup_pins env config reg).2.1.sx1302_power_en = reg.sx1302_power_en ∨
      (setup_pins env config reg).2.1.sx1302_power_en =
        (setupSx1302PowerEn env config.sx1302_power_en
          reg.sx1302_power_en).2.1) ∧
    ((setup_pins env config reg).2.1.sx1261_reset = reg.sx1261_reset ∨
      (setup_pins env config reg).2.1.sx1261_reset =
        (setupSx1261Reset env config.sx1261_reset reg.sx1261_reset).2.1) ∧
    ((setup_pins env config reg).2.1.ad5338r_reset = reg.ad5338r_reset ∨
      (setup_pins env config reg).2.1.ad5338r_reset =
        (setupAd5338rReset env config.ad5338r_reset reg.ad5338r_reset).2.1) ∧
    ((setup_pins env config reg).2.1.reset_commands = reg.reset_commands ∨
      ∃ cs, config.reset_commands = some cs ∧
        (setup_pins env config reg).2.1.reset_commands = some cs) := by
  rcases hb1 : setupSx1302Reset env config.sx130x_reset reg.sx1302_reset
    with ⟨r1, s1, t1⟩
  cases r1 with
  | error e1 => simp [setup_pins, hb1]
  | ok u1 =>
    rcases hb2 : setupSx1302PowerEn env config.sx1302_power_en
        reg.sx1302_power_en with ⟨r2, s2, t2⟩
    cases r2 with
    | error e2 => simp [setup_pins, hb1, hb2]
    | ok u2 =>
      rcases hb3 : setupSx1261Reset env config.sx1261_reset reg.sx1261_reset
        with ⟨r3, s3, t3⟩
      cases r3 with
      | error e3 => simp [setup_pins, hb1, hb2, hb3]
      | ok u3 =>
        rcases hb4 : setupAd5338rReset env config.ad5338r_reset
            reg.ad5338r_reset with ⟨r4, s4, t4⟩
        cases r4 with
        | error e4 => simp [setup_pins, hb1, hb2, hb3, hb4]
        | ok u4 =>
          rcases hrc : config.reset_commands with _ | cs <;>
            simp [setup_pins, hb1, hb2, hb3, hb4, hrc]

/-- On success, `setup_pins` requested exactly the present pin fields, in
field order, each as an output with initial level 0. -/
theorem setup_pins_ok_requests (env : Env) (config : Configuration)
    (reg : Registry) (h : (setup_pins env config reg).1 = .ok ()) :
    (setup_pins env config reg).2.2 = expectedRequests config := by
  rcases hb1 : setupSx1302Reset env config.sx130x_reset reg.sx1302_reset
    with ⟨r1, s1, t1⟩
  cases r1 with
  | error e1 => simp [setup_pins, hb1] at h
  | ok u1 =>
    have q1 : t1 = requestsFor config.sx130x_reset "sx130x_reset" := by
      have hok : (setupSx1302Reset env config.sx130x_reset
          reg.sx1302_reset).1 = .ok () := by rw [hb1]
      have hq := setupSx1302Reset_ok_requests env _ _ hok
      rw [hb1] at hq
      exact hq
    rcases hb2 : setupSx1302PowerEn env config.sx1302_power_en
        reg.sx1302_power_en with ⟨r2, s2, t2⟩
    cases r2 with
    | error e2 => simp [setup_pins, hb1, hb2] at h
    | ok u2 =>
      have q2 : t2 = requestsFor config.sx1302_power_en "sx1302_power_en" := by
        have hok : (setupSx1302PowerEn env config.sx1302_power_en
            reg.sx1302_power_en).1 = .ok () := by rw [hb2]
        have hq := setupSx1302PowerEn_ok_requests env _ _ hok
        rw [hb2] at hq
        exact hq
      rcases hb3 : setupSx1261Reset env config.sx1261_reset reg.sx1261_reset
        with ⟨r3, s3, t3⟩
      cases r3 with
      | error e3 => simp [setup_pins, hb1, hb2, hb3] at h
      | ok u3 =>
        have q3 : t3 = requestsFor config.sx1261_reset "sx1261_reset" := by
          have hok : (setupSx1261Reset env config.sx1261_reset
              reg.sx1261_reset).1 = .ok () := by rw [hb3]
          have hq := setupSx1261Reset_ok_requests env _ _ hok
          rw [hb3] at hq
          exact hq
        rcases hb4 : setupAd5338rReset env config.ad5338r_reset
            reg.ad5338r_reset with ⟨r4, s4, t4⟩
        cases r4 with
        | error e4 => simp [setup_pins, hb1, hb2, hb3, hb4] at h
        | ok u4 =>
          have q4 : t4 = requestsFor config.ad5338r_reset "ad5338r_reset" := by
            have hok : (setupAd5338rReset env config.ad5338r_reset
                reg.ad5338r_reset).1 = .ok () := by rw [hb4]
            have hq := setupAd5338rReset_ok_requests env _ _ hok
            rw [hb4] at hq
            exact hq
          rcases hrc : config.reset_commands with _ | cs <;>
            simp [setup_pins, hb1, hb2, hb3, hb4, hrc, q1, q2, q3, q4,
              expectedRequests]

/-- Every line request `setup_pins` performs — whatever the environment and
wherever it aborts — is an output request with initial level 0. -/
theorem setup_pins_params (env : Env) (config : Configuration) (reg : Registry)
    (ev : SetupAction) (h : ev ∈ (setup_pins env config reg).2.2) :
    ev.initial = 0 ∧ ev.flags = .OUTPUT := by
  rcases hb1 : setupSx1302Reset env config.sx130x_reset reg.sx1302_reset
    with ⟨r1, s1, t1⟩
  cases r1 with
  | error e1 =>
    simp [setup_pins, hb1] at h
    exact setupSx1302Reset_params env _ _ ev (by rw [hb1]; exact h)
  | ok u1 =>
    rcases hb2 : setupSx1302PowerEn env config.sx1302_power_en
        reg.sx1302_power_en with ⟨r2, s2, t2⟩
    cases r2 with
    | error e2 =>
      simp [setup_pins, hb1, hb2, List.mem_append] at h
      rcases h with h | h
      · exact setupSx1302Reset_params env _ _ ev (by rw [hb1]; exact h)
      · exact setupSx1302PowerEn_params env _ _ ev (by rw [hb2]; exact h)
    | ok u2 =>
      rcases hb3 : setupSx1261Reset env config.sx1261_reset reg.sx1261_reset
        with ⟨r3, s3, t3⟩
      cases r3 with
      | error e3 =>
        simp [setup_pins, hb1, hb2, hb3, List.mem_append] at h
        rcases h with h | h | h
        · exact setupSx1302Reset_params env _ _ ev (by rw [hb1]; exact h)
        · exact setupSx1302PowerEn_params env _ _ ev (by rw [hb2]; exact h)
        · exact setupSx1261Reset_params env _ _ ev (by rw [hb3]; exact h)
      | ok u3 =>
        rcases hb4 : setupAd5338rReset env config.ad5338r_reset
            reg.ad5338r_reset with ⟨r4, s4, t4⟩
        cases r4 with
        | error e4 =>
          simp [setup_pins, hb1, hb2, hb3, hb4, List.mem_append] at h
          rcases h with h | h | h | h
          · exact setupSx1302Reset_params env _ _ ev (by rw [hb1]; exact h)
          · exact setupSx1302PowerEn_params env _ _ ev (by rw [hb2]; exact h)
          · exact setupSx1261Reset_params env _ _ ev (by rw [hb3]; exact h)
          · exact setupAd5338rReset_params env _ _ ev (by rw [hb4]; exact h)
        | ok u4 =>
          simp [setup_pins, hb1, hb2, hb3, hb4, List.mem_append] at h
          rcases h with h | h | h | h
          · exact setupSx1302Reset_params env _ _ ev (by rw [hb1]; exact h)
          · exact setupSx1302PowerEn_params env _ _ ev (by rw [hb2]; exact h)
          · exact setupSx1261Reset_params env _ _ ev (by rw [hb3]; exact h)
          · exact setupAd5338rReset_params env _ _ ev (by rw [hb4]; exact h)

/-- A default (empty) configuration leaves the registry untouched, performs no
requests, and succeeds, under every environment. -/
theorem setup_pins_default (env : Env) (reg : Registry) :
    setup_pins env Configuration.default reg = (.ok (), reg, []) := rfl

/-! ### Claims -/

/-- C1: in every `reset()` call that succeeds, each configured pin receives
exactly its specified pulse: `chip_reset` (sx1302) is set HIGH, then after a
100 ms wait set LOW (active high), while `companion_radio_reset` (sx1261) and
`dac_reset` (AD5338R) are each set LOW, then after a 100 ms wait set HIGH
(active low), each pulse followed by a 100 ms wait, with no other level change
on that signal anywhere in the call. -/
theorem claim_c1 (env : Env) (reg : Registry)
    (hok : (reset env reg).1 = .ok ()) :
    (∀ h, reg.sx1302_reset = some h → ∃ pre post,
      (reset env reg).2 = pre ++ [Action.setLevel .sx1302_reset h 1,
        Action.sleepMs 100, Action.setLevel .sx1302_reset h 0,
        Action.sleepMs 100] ++ post ∧
      eventsOf .sx1302_reset pre = [] ∧ eventsOf .sx1302_reset post = []) ∧
    (∀ h, reg.sx1261_reset = some h → ∃ pre post,
      (reset env reg).2 = pre ++ [Action.setLevel .sx1261_reset h 0,
        Action.sleepMs 100, Action.setLevel .sx1261_reset h 1,
        Action.sleepMs 100] ++ post ∧
      eventsOf .sx1261_reset pre = [] ∧ eventsOf .sx1261_reset post = []) ∧
    (∀ h, reg.ad5338r_reset = some h → ∃ pre post,
      (reset env reg).2 = pre ++ [Action.setLevel .ad5338r_reset h 0,
        Action.sleepMs 100, Action.setLevel .ad5338r_reset h 1,
        Action.sleepMs 100] ++ post ∧
      eventsOf .ad5338r_reset pre = [] ∧ eventsOf .ad5338r_reset post = []) := by
  rw [reset_ok_trace env reg hok]
  refine ⟨?_, ?_, ?_⟩
  · intro h hcfg
    refine ⟨powerEnTrace reg.sx1302_power_en,
      sx1261Trace reg.sx1261_reset ++ ad5338rTrace reg.ad5338r_reset ++
        cmdsTrace reg.reset_commands, ?_, ?_, ?_⟩
    · simp [resetTrace, hcfg, sx1302Trace, List.append_assoc]
    · exact eventsOf_powerEnTrace _ _ (by decide)
    · simp [eventsOf_append,
        eventsOf_sx1261Trace reg.sx1261_reset Signal.sx1302_reset (by decide),
        eventsOf_ad5338rTrace reg.ad5338r_reset Signal.sx1302_reset (by decide),
        eventsOf_cmdsTrace]
  · intro h hcfg
    refine ⟨powerEnTrace reg.sx1302_power_en ++ sx1302Trace reg.sx1302_reset,
      ad5338rTrace reg.ad5338r_reset ++ cmdsTrace reg.reset_commands,
      ?_, ?_, ?_⟩
    · simp [resetTrace, hcfg, sx1261Trace, List.append_assoc]
    · simp [eventsOf_append,
        eventsOf_powerEnTrace reg.sx1302_power_en Signal.sx1261_reset (by decide),
        eventsOf_sx1302Trace reg.sx1302_reset Signal.sx1261_reset (by decide)]
    · simp [eventsOf_append,
        eventsOf_ad5338rTrace reg.ad5338r_reset Signal.sx1261_reset (by decide),
        eventsOf_cmdsTrace]
  · intro h hcfg
    refine ⟨powerEnTrace reg.sx1302_power_en ++ sx1302Trace reg.sx1302_reset ++
      sx1261Trace reg.sx1261_reset, cmdsTrace reg.reset_commands, ?_, ?_, ?_⟩
    · simp [resetTrace, hcfg, ad5338rTrace, List.append_assoc]
    · simp [eventsOf_append,
        eventsOf_powerEnTrace reg.sx1302_power_en Signal.ad5338r_reset (by decide),
        eventsOf_sx1302Trace reg.sx1302_reset Signal.ad5338r_reset (by decide),
        eventsOf_sx1261Trace reg.sx1261_reset Signal.ad5338r_reset (by decide)]
    · exact eventsOf_cmdsTrace _ _

/-- C1 witness: the sx1302 pulse on the fully configured sample registry under
the all-success environment. -/
theorem claim_c1_witness :
    ∃ pre post, (reset envAllOk regSample).2 =
      pre ++ [Action.setLevel .sx1302_reset 1 1, Action.sleepMs 100,
        Action.setLevel .sx1302_reset 1 0, Action.sleepMs 100] ++ post ∧
      eventsOf .sx1302_reset pre = [] ∧ eventsOf .sx1302_reset post = [] :=
  (claim_c1 envAllOk regSample rfl).1 1 rfl

/-- C2: whenever `chip_power_enable` (sx1302 power enable) is configured, its
HIGH write is the very first trace action of the `reset()` call — strictly
before any level change on any other pin and before any command — and is
immediately followed by the 100 ms wait; the call either aborts with an empty
trace or starts with exactly this prologue, and the power-enable line is never
driven again later in the call. -/
theorem claim_c2 (env : Env) (reg : Registry) (h : Nat)
    (hcfg : reg.sx1302_power_en = some h) :
    (reset env reg).2 = [] ∨
    ∃ rest, (reset env reg).2 =
        Action.setLevel .sx1302_power_en h 1 :: Action.sleepMs 100 :: rest ∧
      eventsOf .sx1302_power_en rest = [] := by
  rcases hv : env.setValue h 1 with e | u
  · left
    simp [reset, thenDo, resetPowerEn, hcfg, hv]
  · right
    have e1 : (resetPowerEn env reg.sx1302_power_en).1 = .ok () := by
      simp [resetPowerEn, hcfg, hv]
    have hsnd := thenDo_ok_snd (resetPowerEn env reg.sx1302_power_en)
      (fun _ => thenDo (resetSx1302 env reg.sx1302_reset) fun _ =>
        thenDo (resetSx1261 env reg.sx1261_reset) fun _ =>
          thenDo (resetAd5338r env reg.ad5338r_reset) fun _ =>
            runResetCommands env reg.reset_commands) e1
    refine ⟨(thenDo (resetSx1302 env reg.sx1302_reset) fun _ =>
        thenDo (resetSx1261 env reg.sx1261_reset) fun _ =>
          thenDo (resetAd5338r env reg.ad5338r_reset) fun _ =>
            runResetCommands env reg.reset_commands).2, ?_, ?_⟩
    · simp only [reset]
      rw [hsnd]
      simp [resetPowerEn, hcfg, hv]
    · refine eventsOf_thenDo_nil _ _ _ ?_ ?_
      · exact eventsOf_resetSx1302 env _ _ (by decide)
      · refine eventsOf_thenDo_nil _ _ _ ?_ ?_
        · exact eventsOf_resetSx1261 env _ _ (by decide)
        · refine eventsOf_thenDo_nil _ _ _ ?_ ?_
          · exact eventsOf_resetAd5338r env _ _ (by decide)
          · exact eventsOf_runResetCommands env _ _

/-- C2 witness: on the sample registry under the all-success environment the
power-enable HIGH write opens the trace. -/
theorem claim_c2_witness :
    (reset envAllOk regSample).2 = [] ∨
    ∃ rest, (reset envAllOk regSample).2 =
        Action.setLevel .sx1302_power_en 2 1 :: Action.sleepMs 100 :: rest ∧
      eventsOf .sx1302_power_en rest = [] :=
  claim_c2 envAllOk regSample 2 rfl

/-- C3: for every signal left unconfigured, `reset()` performs no operation on
that signal; with nothing configured at all (default `Configuration` over an
empty registry) `setup_pins` leaves the registry empty and `reset()` succeeds
performing no operation whatsoever, under every environment. -/
theorem claim_c3 (env : Env) (reg : Registry) :
    (reg.sx1302_reset = none →
      eventsOf .sx1302_reset (reset env reg).2 = []) ∧
    (reg.sx1302_power_en = none →
      eventsOf .sx1302_power_en (reset env reg).2 = []) ∧
    (reg.sx1261_reset = none →
      eventsOf .sx1261_reset (reset env reg).2 = []) ∧
    (reg.ad5338r_reset = none →
      eventsOf .ad5338r_reset (reset env reg).2 = []) ∧
    (reg.reset_commands = none → cmdEvents (reset env reg).2 = []) ∧
    setup_pins env Configuration.default Registry.empty =
      (.ok (), Registry.empty, []) ∧
    reset env Registry.empty = (.ok (), []) := by
  refine ⟨?_, ?_, ?_, ?_, ?_, setup_pins_default env Registry.empty, rfl⟩
  · intro hnone
    refine eventsOf_thenDo_nil _ _ _ (eventsOf_resetPowerEn env _ _ (by decide))
      (eventsOf_thenDo_nil _ _ _ ?_
        (eventsOf_thenDo_nil _ _ _ (eventsOf_resetSx1261 env _ _ (by decide))
          (eventsOf_thenDo_nil _ _ _
            (eventsOf_resetAd5338r env _ _ (by decide))
            (eventsOf_runResetCommands env _ _))))
    rw [hnone]
    rfl
  · intro hnone
    refine eventsOf_thenDo_nil _ _ _ ?_
      (eventsOf_thenDo_nil _ _ _ (eventsOf_resetSx1302 env _ _ (by decide))
        (eventsOf_thenDo_nil _ _ _ (eventsOf_resetSx1261 env _ _ (by decide))
          (eventsOf_thenDo_nil _ _ _
            (eventsOf_resetAd5338r env _ _ (by decide))
            (eventsOf_runResetCommands env _ _))))
    rw [hnone]
    rfl
  · intro hnone
    refine eventsOf_thenDo_nil _ _ _ (eventsOf_resetPowerEn env _ _ (by decide))
      (eventsOf_thenDo_nil _ _ _ (eventsOf_resetSx1302 env _ _ (by decide))
        (eventsOf_thenDo_nil _ _ _ ?_
          (eventsOf_thenDo_nil _ _ _
            (eventsOf_resetAd5338r env _ _ (by decide))
            (eventsOf_runResetCommands env _ _))))
    rw [hnone]
    rfl
  · intro hnone
    refine eventsOf_thenDo_nil _ _ _ (eventsOf_resetPowerEn env _ _ (by decide))
      (eventsOf_thenDo_nil _ _ _ (eventsOf_resetSx1302 env _ _ (by decide))
        (eventsOf_thenDo_nil _ _ _ (eventsOf_resetSx1261 env _ _ (by decide))
          (eventsOf_thenDo_nil _ _ _ ?_
            (eventsOf_runResetCommands env _ _))))
    rw [hnone]
    rfl
  · intro hnone
    refine cmdEvents_thenDo_nil _ _ (cmdEvents_resetPowerEn env _)
      (cmdEvents_thenDo_nil _ _ (cmdEvents_resetSx1302 env _)
        (cmdEvents_thenDo_nil _ _ (cmdEvents_resetSx1261 env _)
          (cmdEvents_thenDo_nil _ _ (cmdEvents_resetAd5338r env _) ?_)))
    rw [hnone]
    rfl

/-- C3 witness: evaluation on the empty registry under the all-success
environment. -/
theorem claim_c3_witness :
    eventsOf .sx1302_reset (reset envAllOk Registry.empty).2 = [] ∧
    cmdEvents (reset envAllOk Registry.empty).2 = [] ∧
    reset envAllOk Registry.empty = (.ok (), []) :=
  ⟨(claim_c3 envAllOk Registry.empty).1 rfl,
   (claim_c3 envAllOk Registry.empty).2.2.2.2.1 rfl,
   (claim_c3 envAllOk Registry.empty).2.2.2.2.2.2⟩

/-- C4: in a successful `reset()` call with `reset_commands` configured, the
command segment of the trace is exactly the stored commands in stored order,
each immediately followed by the 100 ms wait, with no command launched before
the segment; sequencing is synchronous, so each launch runs to completion
before the next trace action. -/
theorem claim_c4 (env : Env) (reg : Registry)
    (cmds : List (String × List String))
    (hok : (reset env reg).1 = .ok ())
    (hcfg : reg.reset_commands = some cmds) :
    ∃ pre, (reset env reg).2 = pre ++ cmdListTrace cmds ∧
      cmdEvents pre = [] ∧
      cmdEvents (cmdListTrace cmds) =
        cmds.map fun p => Action.runCmd p.1 p.2 := by
  rw [reset_ok_trace env reg hok]
  refine ⟨powerEnTrace reg.sx1302_power_en ++ sx1302Trace reg.sx1302_reset ++
    sx1261Trace reg.sx1261_reset ++ ad5338rTrace reg.ad5338r_reset, ?_, ?_,
    cmdEvents_cmdListTrace cmds⟩
  · simp [resetTrace, hcfg, cmdsTrace, List.append_assoc]
  · simp [cmdEvents_append, cmdEvents_powerEnTrace, cmdEvents_sx1302Trace,
      cmdEvents_sx1261Trace, cmdEvents_ad5338rTrace]

/-- C4 witness: the sample registry's single command under the all-success
environment. -/
theorem claim_c4_witness :
    ∃ pre, (reset envAllOk regSample).2 =
        pre ++ cmdListTrace [("c", ["x"])] ∧
      cmdEvents pre = [] ∧
      cmdEvents (cmdListTrace [("c", ["x"])]) =
        List.map (fun p => Action.runCmd p.1 p.2) [("c", ["x"])] :=
  claim_c4 envAllOk regSample [("c", ["x"])] rfl rfl

/-- C9: if `reset()` fails, the operations it executed form a prefix of the
nominal sequence for the registry: the remainder is aborted and nothing
already executed is undone or compensated. -/
theorem claim_c9 (env : Env) (reg : Registry) (e : Err)
    (herr : (reset env reg).1 = .error e) :
    (reset env reg).1 = .error e ∧
    ∃ t, (reset env reg).2 ++ t = resetTrace reg :=
  ⟨herr, reset_trace_le_full env reg⟩

/-- C9 witness: under an environment whose level writes all fail, `reset` on
the sample registry aborts with the I/O error having executed a prefix. -/
theorem claim_c9_witness :
    (reset envSetFail regSample).1 = .error "io" ∧
    ∃ t, (reset envSetFail regSample).2 ++ t = resetTrace regSample :=
  claim_c9 envSetFail regSample "io" rfl

/-- C10: in a successful `reset()` call, a 100 ms delay follows every
executed command including the final one: the trace ends with the last command
immediately followed by a sleep. -/
theorem claim_c10 (env : Env) (reg : Registry)
    (cs : List (String × List String)) (cmd : String) (args : List String)
    (hok : (reset env reg).1 = .ok ())
    (hcfg : reg.reset_commands = some (cs ++ [(cmd, args)])) :
    ∃ pre, (reset env reg).2 =
      pre ++ [Action.runCmd cmd args, Action.sleepMs 100] := by
  rw [reset_ok_trace env reg hok]
  refine ⟨powerEnTrace reg.sx1302_power_en ++ sx1302Trace reg.sx1302_reset ++
    sx1261Trace reg.sx1261_reset ++ ad5338rTrace reg.ad5338r_reset ++
    cmdListTrace cs, ?_⟩
  simp [resetTrace, hcfg, cmdsTrace, cmdListTrace_append, cmdListTrace,
    List.append_assoc]

/-- C10 witness: the sample registry's final (only) command is followed by the
100 ms sleep at the end of the trace. -/
theorem claim_c10_witness :
    ∃ pre, (reset envAllOk regSample).2 =
      pre ++ [Action.runCmd "c" ["x"], Action.sleepMs 100] :=
  claim_c10 envAllOk regSample [] "c" ["x"] rfl rfl

theorem runCommandList_all_ok (env : Env) (cmds : List (String × List String))
    (h : ∀ p ∈ cmds, ∃ o, env.runCommand p.1 p.2 = .ok o) :
    runCommandList env cmds = (.ok (), cmdListTrace cmds) := by
  induction cmds with
  | nil => rfl
  | cons p rest ih =>
    obtain ⟨c0, a0⟩ := p
    obtain ⟨o, ho⟩ := h (c0, a0) (by simp)
    have ihh := ih fun q hq => h q (by simp [hq])
    simp [runCommandList, ho, ihh, cmdListTrace]

theorem runCommandList_fail_at (env : Env)
    (cmds1 : List (String × List String)) (cmd : String) (args : List String)
    (cmds2 : List (String × List String)) (e : Err)
    (h1 : ∀ p ∈ cmds1, ∃ o, env.runCommand p.1 p.2 = .ok o)
    (h2 : env.runCommand cmd args = .error e) :
    runCommandList env (cmds1 ++ (cmd, args) :: cmds2) =
      (.error e, cmdListTrace cmds1) := by
  induction cmds1 with
  | nil => simp [runCommandList, h2, cmdListTrace]
  | cons p rest ih =>
    obtain ⟨c0, a0⟩ := p
    obtain ⟨o, ho⟩ := h1 (c0, a0) (by simp)
    have ihh := ih fun q hq => h1 q (by simp [hq])
    rcases hr : runCommandList env (rest ++ (cmd, args) :: cmds2) with ⟨r, tr⟩
    rw [hr] at ihh
    simp only [List.cons_append, runCommandList, ho, hr]
    simp_all [cmdListTrace]

/-- C5 counterexample: with two configured commands whose launches succeed but
exit with the failure status 1, `reset()` returns success and still runs the
second command — a failure exit status is neither propagated nor does it abort
the sequence. -/
theorem claim_c5_counterexample :
    reset envExitOne
        { Registry.empty with reset_commands := some [("a", []), ("b", [])] } =
      (.ok (), [Action.runCmd "a" [], Action.sleepMs 100,
                Action.runCmd "b" [], Action.sleepMs 100]) := rfl

/-- C5 (amended): `reset()` propagates a command error and aborts the
remaining sequence only when a command fails to LAUNCH; a command that
launches and terminates with a failure (non-zero) exit status is ignored and
the sequence continues, so `reset()` returns success whenever every configured
command launches, whatever the exit statuses. -/
theorem claim_c5_amended :
    (∀ (env : Env) (cmds1 : List (String × List String)) (cmd : String)
        (args : List String) (cmds2 : List (String × List String)) (e : Err),
      (∀ p ∈ cmds1, ∃ o, env.runCommand p.1 p.2 = .ok o) →
      env.runCommand cmd args = .error e →
      reset env { Registry.empty with
          reset_commands := some (cmds1 ++ (cmd, args) :: cmds2) } =
        (.error e, cmdListTrace cmds1)) ∧
    (∀ (env : Env) (cmds : List (String × List String)),
      (∀ p ∈ cmds, ∃ o, env.runCommand p.1 p.2 = .ok o) →
      (reset env { Registry.empty with reset_commands := some cmds }).1 =
        .ok ()) := by
  constructor
  · intro env cmds1 cmd args cmds2 e h1 h2
    show runCommandList env (cmds1 ++ (cmd, args) :: cmds2) =
      (.error e, cmdListTrace cmds1)
    exact runCommandList_fail_at env cmds1 cmd args cmds2 e h1 h2
  · intro env cmds h
    show (runCommandList env cmds).1 = .ok ()
    rw [runCommandList_all_ok env cmds h]

/-- C5 amended witness: a launch failure aborts after the first command; a
failure exit status alone yields success. -/
theorem claim_c5_amended_witness :
    reset envLaunchFail { Registry.empty with
        reset_commands := some [("ok1", []), ("bad", []), ("after", [])] } =
      (.error "launch", cmdListTrace [("ok1", [])]) ∧
    (reset envExitOne
        { Registry.empty with reset_commands := some [("a", [])] }).1 =
      .ok () :=
  ⟨claim_c5_amended.1 envLaunchFail [("ok1", [])] "bad" [] [("after", [])]
      "launch"
      (by
        intro p hp
        simp at hp
        subst hp
        exact ⟨⟨0⟩, rfl⟩)
      rfl,
   claim_c5_amended.2 envExitOne [("a", [])]
      (by
        intro p hp
        simp at hp
        subst hp
        exact ⟨⟨1⟩, rfl⟩)⟩

/-- C6: when the `sx130x_reset` field configures successfully but the
`ad5338r_reset` line request fails, `setup_pins` returns that error, the
sx1302 slot keeps its acquired handle while the dac slot and the command list
stay untouched even if commands were configured (abort at the failing field,
no rollback), and a subsequent `reset()` drives the retained handle with its
full pulse. -/
theorem claim_c6 (env : Env) (d1 : String) (p1 : Nat) (hdl : Nat) (d2 : String)
    (p2 : Nat) (e : Err) (ocmds : Option (List (String × List String)))
    (h1c : env.newChip d1 = .ok ()) (h1l : env.getLine d1 p1 = .ok ())
    (h1r : env.request d1 p1 .OUTPUT 0 "sx130x_reset" = .ok hdl)
    (h2c : env.newChip d2 = .ok ()) (h2l : env.getLine d2 p2 = .ok ())
    (h2r : env.request d2 p2 .OUTPUT 0 "ad5338r_reset" = .error e) :
    (setup_pins env { sx130x_reset := some (d1, p1)
                      ad5338r_reset := some (d2, p2)
                      reset_commands := ocmds }
        Registry.empty).1 = .error e ∧
    (setup_pins env { sx130x_reset := some (d1, p1)
                      ad5338r_reset := some (d2, p2)
                      reset_commands := ocmds }
        Registry.empty).2.1 =
      { Registry.empty with sx1302_reset := some hdl } ∧
    (∀ env2 : Env, env2.setValue hdl 1 = .ok () →
      env2.setValue hdl 0 = .ok () →
      reset env2 { Registry.empty with sx1302_reset := some hdl } =
        (.ok (), [Action.setLevel .sx1302_reset hdl 1, Action.sleepMs 100,
                  Action.setLevel .sx1302_reset hdl 0, Action.sleepMs 100])) := by
  refine ⟨?_, ?_, ?_⟩
  · simp [setup_pins, setupSx1302Reset, setupSx1302PowerEn, setupSx1261Reset,
      setupAd5338rReset, setupPin, h1c, h1l, h1r, h2c, h2l, h2r,
      Registry.empty]
  · simp [setup_pins, setupSx1302Reset, setupSx1302PowerEn, setupSx1261Reset,
      setupAd5338rReset, setupPin, h1c, h1l, h1r, h2c, h2l, h2r,
      Registry.empty]
  · intro env2 hv1 hv0
    simp [reset, thenDo, resetPowerEn, resetSx1302, resetSx1261, resetAd5338r,
      runResetCommands, hv1, hv0, Registry.empty]

/-- C6 witness: concrete evaluation with an environment refusing only the
`ad5338r_reset` request. -/
theorem claim_c6_witness :
    (setup_pins envFailAd { sx130x_reset := some ("d1", 1)
                            ad5338r_reset := some ("d2", 2)
                            reset_commands := some [("c", [])] }
        Registry.empty).1 =
      .error "line claim" ∧
    (setup_pins envFailAd { sx130x_reset := some ("d1", 1)
                            ad5338r_reset := some ("d2", 2)
                            reset_commands := some [("c", [])] }
        Registry.empty).2.1 =
      { Registry.empty with sx1302_reset := some 1 } ∧
    (∀ env2 : Env, env2.setValue 1 1 = .ok () → env2.setValue 1 0 = .ok () →
      reset env2 { Registry.empty with sx1302_reset := some 1 } =
        (.ok (), [Action.setLevel .sx1302_reset 1 1, Action.sleepMs 100,
                  Action.setLevel .sx1302_reset 1 0, Action.sleepMs 100])) :=
  claim_c6 envFailAd "d1" 1 1 "d2" 2 "line claim" (some [("c", [])])
    rfl rfl rfl rfl rfl rfl

/-- C7 counterexample: two successive `setup_pins` calls that both configure
`sx130x_reset`, with different pins and both line requests succeeding,
reassign the slot from handle 4 to handle 5 — so a slot, once set, CAN be
reassigned, contrary to the claim. -/
theorem claim_c7_counterexample :
    (setup_pins envAllOk { sx130x_reset := some ("d", 4) }
        Registry.empty).2.1.sx1302_reset = some 4 ∧
    (setup_pins envAllOk { sx130x_reset := some ("d", 5) }
        (setup_pins envAllOk { sx130x_reset := some ("d", 4) }
          Registry.empty).2.1).2.1.sx1302_reset = some 5 ∧
    (4 : Nat) ≠ 5 :=
  ⟨rfl, rfl, by decide⟩

/-- C7 (amended): a registry slot, once set, is never cleared back to
unconfigured, and a slot is never modified by a `setup_pins` call whose
configuration omits that signal (and `reset` never writes the registry at
all); a slot can only be reassigned by a later `setup_pins` call that
configures the same signal again and whose line request succeeds. -/
theorem claim_c7_amended (env : Env) (config : Configuration)
    (reg : Registry) :
    ((setup_pins env config reg).2.1.sx1302_reset = none →
      reg.sx1302_reset = none) ∧
    ((setup_pins env config reg).2.1.sx1302_power_en = none →
      reg.sx1302_power_en = none) ∧
    ((setup_pins env config reg).2.1.sx1261_reset = none →
      reg.sx1261_reset = none) ∧
    ((setup_pins env config reg).2.1.ad5338r_reset = none →
      reg.ad5338r_reset = none) ∧
    ((setup_pins env config reg).2.1.reset_commands = none →
      reg.reset_commands = none) ∧
    (config.sx130x_reset = none →
      (setup_pins env config reg).2.1.sx1302_reset = reg.sx1302_reset) ∧
    (config.sx1302_power_en = none →
      (setup_pins env config reg).2.1.sx1302_power_en =
        reg.sx1302_power_en) ∧
    (config.sx1261_reset = none →
      (setup_pins env config reg).2.1.sx1261_reset = reg.sx1261_reset) ∧
    (config.ad5338r_reset = none →
      (setup_pins env config reg).2.1.ad5338r_reset = reg.ad5338r_reset) ∧
    (config.reset_commands = none →
      (setup_pins env config reg).2.1.reset_commands = reg.reset_commands) := by
  obtain ⟨hs1, hs2, hs3, hs4, hs5⟩ := setup_pins_slots env config reg
  refine ⟨?_, ?_, ?_, ?_, ?_, ?_, ?_, ?_, ?_, ?_⟩
  · intro h
    rw [hs1] at h
    exact setupSx1302Reset_slot_none env _ _ h
  · intro h
    rcases hs2 with h2 | h2
    · rw [h2] at h; exact h
    · rw [h2] at h
      exact setupSx1302PowerEn_slot_none env _ _ h
  · intro h
    rcases hs3 with h3 | h3
    · rw [h3] at h; exact h
    · rw [h3] at h
      exact setupSx1261Reset_slot_none env _ _ h
  · intro h
    rcases hs4 with h4 | h4
    · rw [h4] at h; exact h
    · rw [h4] at h
      exact setupAd5338rReset_slot_none env _ _ h
  · intro h
    rcases hs5 with h5 | ⟨cs, hcs, h5⟩
    · rw [h5] at h; exact h
    · rw [h5] at h
      cases h
  · intro hc
    rw [hs1, hc]
    rfl
  · intro hc
    rcases hs2 with h2 | h2
    · exact h2
    · rw [h2, hc]
      rfl
  · intro hc
    rcases hs3 with h3 | h3
    · exact h3
    · rw [h3, hc]
      rfl
  · intro hc
    rcases hs4 with h4 | h4
    · exact h4
    · rw [h4, hc]
      rfl
  · intro hc
    rcases hs5 with h5 | ⟨cs, hcs, h5⟩
    · exact h5
    · rw [hc] at hcs
      cases hcs

/-- C7 amended witness: on the empty registry with the default configuration
the slot stays unconfigured and the command list untouched. -/
theorem claim_c7_amended_witness :
    Registry.empty.sx1302_reset = none ∧
    (setup_pins envAllOk Configuration.default
        Registry.empty).2.1.reset_commands = Registry.empty.reset_commands :=
  ⟨(claim_c7_amended envAllOk Configuration.default Registry.empty).1 rfl,
   (claim_c7_amended envAllOk Configuration.default
      Registry.empty).2.2.2.2.2.2.2.2.2 rfl⟩

/-- C8: every line request `setup_pins` performs is an output request with
initial level LOW (0), and on success the requests are exactly one such
request per present pin field, in field order. -/
theorem claim_c8 (env : Env) (config : Configuration) (reg : Registry) :
    (∀ ev ∈ (setup_pins env config reg).2.2,
      ev.initial = 0 ∧ ev.flags = .OUTPUT) ∧
    ((setup_pins env config reg).1 = .ok () →
      (setup_pins env config reg).2.2 = expectedRequests config) :=
  ⟨fun ev hev => setup_pins_params env config reg ev hev,
   fun h => setup_pins_ok_requests env config reg h⟩

/-- C8 witness: the four requests issued for the fully present sample
configuration, all with initial level 0. -/
theorem claim_c8_witness :
    (setup_pins envAllOk cfgSample Registry.empty).2.2 =
      expectedRequests cfgSample ∧
    (SetupAction.request "a" 1 .OUTPUT 0 "sx130x_reset").initial = 0 ∧
    (SetupAction.request "a" 1 .OUTPUT 0 "sx130x_reset").flags = .OUTPUT :=
  ⟨(claim_c8 envAllOk cfgSample Registry.empty).2 rfl,
   (claim_c8 envAllOk cfgSample Registry.empty).1
     (.request "a" 1 .OUTPUT 0 "sx130x_reset") (by decide)⟩

end Concentratord
